import Mathlib

/-!
Shallow embedding of `src/MatLab/project/sendver.py` (class `CameraApp`).

Frames, the filter-state dictionary, the toggle handlers, `update_frame`
and `apply_face_filter` are translated from the source.  External
collaborators — OpenCV (`cv2.cvtColor`, `cv2.flip`, `cv2.imread`), the
MediaPipe face-mesh detector (`self.face_mesh.process`) and the `filters`
module (`add_blush`, `overlay_sunglasses`, `overlay_rabbit_ears`,
`apply_background_change`), whose source is not part of this repository —
are modelled as an explicit environment of functions.  Every call into the
environment is recorded in an event trace, so "how often is X invoked per
tick" becomes a statement about the trace of one tick.
-/

namespace MatLab

/-- A pixel: the list of its 8-bit channel values. -/
abbrev Pixel := List Nat

/-- A frame: rows of pixels (height × width × channels). -/
abbrev Frame := List (List Pixel)

/-- One facial landmark.  `sendver.py` never inspects coordinates; it only
passes the landmark list through to the `filters` module. -/
structure Landmark where
  x : Int
  y : Int
deriving DecidableEq, Repr

/-- The landmark list of one detected face (`face_landmarks.landmark`). -/
abbrev LandmarkSet := List Landmark

/-- A frame fits `cv2.cvtColor(..., cv2.COLOR_BGR2RGB)` iff every pixel has
exactly 3 channels. -/
def validPixel (px : Pixel) : Bool := px.length == 3

def validFrame (f : Frame) : Bool := f.all fun row => row.all validPixel

/-- The channel reversal `cv2.cvtColor(frame, cv2.COLOR_BGR2RGB)` performs
on a well-formed frame. -/
def bgr2rgb (f : Frame) : Frame := f.map fun row => row.map List.reverse

/-- The error `cv2` raises in the modelled fragment: a frame whose shape
does not fit the requested conversion (the spec's `InvalidFrameFormat`). -/
inductive CvError where
  | invalidFrameFormat
deriving DecidableEq, Repr

def cvtColorBGR2RGB (f : Frame) : Except CvError Frame :=
  if validFrame f then .ok (bgr2rgb f) else .error .invalidFrameFormat

/-- `cv2.flip(frame, 1)`: horizontal mirror. -/
def cvFlipH (f : Frame) : Frame := f.map List.reverse

/-- Keys of the `self.filter_states` dictionary. -/
inductive FilterName where
  | Blush
  | Sunglasses
  | RabbitEars
  | Background
deriving DecidableEq, Repr

/-- The `self.filter_states` dictionary: one boolean per filter key. -/
structure FilterState where
  blush : Bool
  sunglasses : Bool
  rabbitEars : Bool
  background : Bool
deriving DecidableEq, Repr

def FilterState.get (fs : FilterState) : FilterName → Bool
  | .Blush => fs.blush
  | .Sunglasses => fs.sunglasses
  | .RabbitEars => fs.rabbitEars
  | .Background => fs.background

def FilterState.set (fs : FilterState) : FilterName → Bool → FilterState
  | .Blush, b => { fs with blush := b }
  | .Sunglasses, b => { fs with sunglasses := b }
  | .RabbitEars, b => { fs with rabbitEars := b }
  | .Background, b => { fs with background := b }

/-- `any(self.filter_states.values())`. -/
def FilterState.anyActive (fs : FilterState) : Bool :=
  fs.blush || fs.sunglasses || fs.rabbitEars || fs.background

/-- The mutable attributes of `CameraApp` the modelled methods touch:
`self.filter_states`, `self.current_background`, `self.current_frame`
(the last is `none` until the first successful tick, matching the
`hasattr` guard in `capture_image`). -/
structure CameraState where
  filter_states : FilterState
  current_background : Option String
  current_frame : Option Frame
deriving DecidableEq, Repr

/-- `self.background_images = {1: 'space.jpg', 2: 'background.jpg'}`. -/
def background_images : Nat → Option String
  | 1 => some "space.jpg"
  | 2 => some "background.jpg"
  | _ => none

/-- `FaceMesh(max_num_faces=10)`. -/
def maxNumFaces : Nat := 10

/-- The state set up by `CameraApp.__init__`: all flags `False`,
`current_background = None`, no captured frame yet. -/
def initState : CameraState :=
  { filter_states :=
      { blush := false, sunglasses := false, rabbitEars := false, background := false }
    current_background := none
    current_frame := none }

/-- `toggle_filter(self, filter_name)`. -/
def toggle_filter (s : CameraState) (name : FilterName) : CameraState :=
  { s with filter_states := s.filter_states.set name (!(s.filter_states.get name)) }

/-- `toggle_background(self, checked)`. -/
def toggle_background (s : CameraState) (checked : Bool) : CameraState :=
  if checked then
    { s with current_background := background_images 1
             filter_states := s.filter_states.set .Background true }
  else
    { s with current_background := none
             filter_states := s.filter_states.set .Background false }

/-- One call into an external collaborator during a tick. -/
inductive Event where
  | detect
  | blushCall (lm : LandmarkSet)
  | sunglassesCall (lm : LandmarkSet)
  | rabbitEarsCall (lm : LandmarkSet)
  | imreadCall (path : String)
  | backgroundCall (lm : LandmarkSet)
deriving DecidableEq, Repr

def Event.isDetect : Event → Bool
  | .detect => true
  | _ => false

def Event.isBlush : Event → Bool
  | .blushCall _ => true
  | _ => false

def Event.isSunglasses : Event → Bool
  | .sunglassesCall _ => true
  | _ => false

def Event.isRabbitEars : Event → Bool
  | .rabbitEarsCall _ => true
  | _ => false

def Event.isImread : Event → Bool
  | .imreadCall _ => true
  | _ => false

def Event.isBackground : Event → Bool
  | .backgroundCall _ => true
  | _ => false

/-- The external collaborators of `sendver.py`: the four `filters` module
functions, `cv2.imread` (which yields `none` on an unreadable file) and the
MediaPipe detector (`results.multi_face_landmarks`, one landmark set per
detected face, in detector order). -/
structure Env where
  add_blush : Frame → LandmarkSet → Frame
  overlay_sunglasses : Frame → LandmarkSet → Frame
  overlay_rabbit_ears : Frame → LandmarkSet → Frame
  apply_background_change : Frame → LandmarkSet → Option Frame → Frame
  imread : String → Option Frame
  detect : Frame → List LandmarkSet

/-- The frame after the body of the per-face loop of `apply_face_filter`:
each active filter applied in source order; the Background branch runs only
when the flag is set *and* `self.current_background` is truthy (a Python
string is falsy exactly when empty), and it first re-reads the background
file with `cv2.imread`. -/
def perFaceFrame (env : Env) (s : CameraState) (frame : Frame) (lm : LandmarkSet) : Frame :=
  let f1 := if s.filter_states.blush then env.add_blush frame lm else frame
  let f2 := if s.filter_states.sunglasses then env.overlay_sunglasses f1 lm else f1
  let f3 := if s.filter_states.rabbitEars then env.overlay_rabbit_ears f2 lm else f2
  if s.filter_states.background then
    match s.current_background with
    | some bgpath =>
        if bgpath = "" then f3
        else env.apply_background_change f3 lm (env.imread bgpath)
    | none => f3
  else f3

/-- Events of the Blush branch of the per-face loop body. -/
def blushTrace (s : CameraState) (lm : LandmarkSet) : List Event :=
  if s.filter_states.blush then [Event.blushCall lm] else []

/-- Events of the Sunglasses branch of the per-face loop body. -/
def sunglassesTrace (s : CameraState) (lm : LandmarkSet) : List Event :=
  if s.filter_states.sunglasses then [Event.sunglassesCall lm] else []

/-- Events of the RabbitEars branch of the per-face loop body. -/
def rabbitEarsTrace (s : CameraState) (lm : LandmarkSet) : List Event :=
  if s.filter_states.rabbitEars then [Event.rabbitEarsCall lm] else []

/-- Events of the Background branch of the per-face loop body: one
`cv2.imread` of the selected file followed by one `apply_background_change`
call, whenever the flag is set and a (truthy) background is selected. -/
def backgroundTrace (s : CameraState) (lm : LandmarkSet) : List Event :=
  if s.filter_states.background then
    match s.current_background with
    | some bgpath =>
        if bgpath = "" then []
        else [Event.imreadCall bgpath, Event.backgroundCall lm]
    | none => []
  else []

/-- All events of one iteration of the per-face loop, in source order. -/
def perFaceTrace (s : CameraState) (lm : LandmarkSet) : List Event :=
  blushTrace s lm ++ sunglassesTrace s lm ++ rabbitEarsTrace s lm ++ backgroundTrace s lm

/-- One iteration of the per-face loop: resulting frame plus its events. -/
def perFace (env : Env) (s : CameraState) (frame : Frame) (lm : LandmarkSet) :
    Frame × List Event :=
  (perFaceFrame env s frame lm, perFaceTrace s lm)

/-- `for face_landmarks in results.multi_face_landmarks: ...` — the loop
over the detected faces, in the order the detector returned them. -/
def foldFaces (env : Env) (s : CameraState) (faces : List LandmarkSet) (frame : Frame) :
    Frame × List Event :=
  match faces with
  | [] => (frame, [])
  | lm :: rest =>
      let r := perFace env s frame lm
      let r2 := foldFaces env s rest r.1
      (r2.1, r.2 ++ r2.2)

/-- `apply_face_filter(self, frame)`: convert to RGB (raising on a
malformed frame), run the detector once, then run the per-face loop when
any face was found.  The method assigns no attribute of `self`, so the
returned state is the input state. -/
def apply_face_filter (env : Env) (s : CameraState) (frame : Frame) :
    Except CvError (Frame × CameraState) × List Event :=
  match cvtColorBGR2RGB frame with
  | .error e => (.error e, [])
  | .ok frame_rgb =>
      let results := env.detect frame_rgb
      if results.isEmpty then (.ok (frame, s), [Event.detect])
      else
        let r := foldFaces env s results frame
        (.ok (r.1, s), Event.detect :: r.2)

/-- What one tick shows: the scene after `update_frame` either holds the
pixmap of a frame or was cleared. -/
inductive Display where
  | shown (f : Frame)
  | cleared
deriving DecidableEq, Repr

/-- `update_frame(self)`: on a successful camera read the frame is
mirrored, filtered when any flag is active, converted to RGB for the
pixmap, displayed, and stored in `self.current_frame`; on a failed read
the scene is cleared and nothing else happens. -/
def update_frame (env : Env) (s : CameraState) (camRead : Option Frame) :
    Except CvError (CameraState × Display) × List Event :=
  match camRead with
  | none => (.ok (s, Display.cleared), [])
  | some frame0 =>
      let frame1 := cvFlipH frame0
      let step :
          Except CvError (Frame × CameraState) × List Event :=
        if s.filter_states.anyActive then apply_face_filter env s frame1
        else (.ok (frame1, s), [])
      match step with
      | (.error e, tr) => (.error e, tr)
      | (.ok (frame2, s1), tr) =>
          match cvtColorBGR2RGB frame2 with
          | .error e => (.error e, tr)
          | .ok _ =>
              (.ok ({ s1 with current_frame := some frame2 }, Display.shown frame2), tr)

/-- The user actions `initUI` wires to the state-changing handlers: the
three buttons connected to `toggle_filter` and the Background button
connected to `toggle_background`. -/
inductive UiOp where
  | toggleBlush
  | toggleSunglasses
  | toggleRabbitEars
  | toggleBackground (checked : Bool)
deriving DecidableEq, Repr

def applyUiOp (s : CameraState) : UiOp → CameraState
  | .toggleBlush => toggle_filter s .Blush
  | .toggleSunglasses => toggle_filter s .Sunglasses
  | .toggleRabbitEars => toggle_filter s .RabbitEars
  | .toggleBackground checked => toggle_background s checked

/-- States reachable from `__init__` through the wired UI handlers and
successful ticks. -/
inductive Reachable : CameraState → Prop where
  | init : Reachable initState
  | ui (s : CameraState) (op : UiOp) : Reachable s → Reachable (applyUiOp s op)
  | tick (s : CameraState) (env : Env) (camRead : Option Frame)
      (s' : CameraState) (d : Display) (tr : List Event) :
      Reachable s → update_frame env s camRead = (.ok (s', d), tr) → Reachable s'

/-- The frame a pipeline result carries, when it succeeded. -/
def okFrame (r : Except CvError (Frame × CameraState) × List Event) : Option Frame :=
  match r.1 with
  | .ok (g, _) => some g
  | .error _ => none

/-- The pixel of `f` at row `r`, column `c`. -/
def pixelAt (f : Frame) (r c : Nat) : Option Pixel :=
  (f.get? r).bind fun row => row.get? c

/-- `true` when the Background branch of the per-face loop actually fires:
flag set and a truthy background selected. -/
def bgSelected (s : CameraState) : Bool :=
  s.filter_states.background &&
    (match s.current_background with
     | some p => if p = "" then false else true
     | none => false)

/-! ### Basic lemmas about the pipeline -/

theorem cvtColor_of_valid (f : Frame) (h : validFrame f = true) :
    cvtColorBGR2RGB f = .ok (bgr2rgb f) := by
  simp [cvtColorBGR2RGB, h]

theorem cvtColor_of_invalid (f : Frame) (h : validFrame f = false) :
    cvtColorBGR2RGB f = .error .invalidFrameFormat := by
  simp [cvtColorBGR2RGB, h]

theorem validFrame_cvFlipH (f : Frame) : validFrame (cvFlipH f) = validFrame f := by
  induction f with
  | nil => rfl
  | cons row rest ih =>
      simp only [validFrame, cvFlipH, List.map_cons, List.all_cons, List.all_reverse] at *
      rw [ih]

/-- `apply_face_filter` never assigns an attribute: a successful run hands
back the input state. -/
theorem apply_face_filter_state (env : Env) (s : CameraState) (frame : Frame)
    (g : Frame) (s' : CameraState) (tr : List Event)
    (h : apply_face_filter env s frame = (.ok (g, s'), tr)) : s' = s := by
  unfold apply_face_filter at h
  cases hc : cvtColorBGR2RGB frame with
  | error e =>
      rw [hc] at h
      dsimp only at h
      exact absurd (congrArg Prod.fst h) (by simp)
  | ok rgb =>
      rw [hc] at h
      dsimp only at h
      by_cases he : (env.detect rgb).isEmpty
      · simp only [he, if_pos] at h
        injection h with h1 h2
        injection h1 with h3
        injection h3 with h4 h5
        exact h5.symm
      · simp only [he, if_neg, Bool.false_eq_true, not_false_iff] at h
        injection h with h1 h2
        injection h1 with h3
        injection h3 with h4 h5
        exact h5.symm

/-- A successful `update_frame` never changes the filter flags nor the
selected background. -/
theorem update_frame_preserves (env : Env) (s : CameraState) (camRead : Option Frame)
    (s' : CameraState) (d : Display) (tr : List Event)
    (h : update_frame env s camRead = (.ok (s', d), tr)) :
    s'.filter_states = s.filter_states ∧ s'.current_background = s.current_background := by
  unfold update_frame at h
  cases camRead with
  | none =>
      dsimp only at h
      injection h with h1 h2
      injection h1 with h3
      injection h3 with h4 h5
      rw [← h4]
      exact ⟨rfl, rfl⟩
  | some frame0 =>
      dsimp only at h
      by_cases ha : s.filter_states.anyActive
      · simp only [ha, if_pos] at h
        cases hstep : apply_face_filter env s (cvFlipH frame0) with
        | mk res tr0 =>
            rw [hstep] at h
            cases res with
            | error e =>
                dsimp only at h
                exact absurd (congrArg Prod.fst h) (by simp)
            | ok p =>
                obtain ⟨frame2, s1⟩ := p
                have hs1 : s1 = s := apply_face_filter_state env s _ _ _ _ hstep
                dsimp only at h
                cases hcv : cvtColorBGR2RGB frame2 with
                | error e =>
                    rw [hcv] at h
                    exact absurd (congrArg Prod.fst h) (by simp)
                | ok rgb =>
                    rw [hcv] at h
                    injection h with h1 h2
                    injection h1 with h3
                    injection h3 with h4 h5
                    rw [← h4]
                    subst hs1
                    exact ⟨rfl, rfl⟩
      · simp only [ha, if_neg, Bool.false_eq_true, not_false_iff] at h
        cases hcv : cvtColorBGR2RGB (cvFlipH frame0) with
        | error e =>
            rw [hcv] at h
            exact absurd (congrArg Prod.fst h) (by simp)
        | ok rgb =>
            rw [hcv] at h
            injection h with h1 h2
            injection h1 with h3
            injection h3 with h4 h5
            rw [← h4]
            exact ⟨rfl, rfl⟩

/-- A trivial concrete environment: identity overlays, no readable files,
a detector that finds no faces.  Used to instantiate universally
quantified theorems on concrete inputs. -/
def idEnv : Env :=
  { add_blush := fun f _ => f
    overlay_sunglasses := fun f _ => f
    overlay_rabbit_ears := fun f _ => f
    apply_background_change := fun f _ _ => f
    imread := fun _ => none
    detect := fun _ => [] }

/-! ### Claims -/

/-- Claim C1: for every tick in which the landmark detector reports no
faces, the compositing step is a no-op — `apply_face_filter` returns the
frame unchanged, bit-identical to its input (and the only external call of
the tick is the one detection). -/
theorem claim_C1_no_faces_identity (env : Env) (s : CameraState) (frame : Frame)
    (hval : validFrame frame = true) (hdet : env.detect (bgr2rgb frame) = []) :
    apply_face_filter env s frame = (.ok (frame, s), [Event.detect]) := by
  unfold apply_face_filter
  rw [cvtColor_of_valid frame hval]
  dsimp only
  rw [hdet]
  rfl

theorem claim_C1_witness :
    validFrame [[[10, 20, 30]]] = true ∧
    Env.detect idEnv (bgr2rgb [[[10, 20, 30]]]) = [] ∧
    apply_face_filter idEnv initState [[[10, 20, 30]]] =
      (.ok ([[[10, 20, 30]]], initState), [Event.detect]) :=
  ⟨by decide, rfl, claim_C1_no_faces_identity idEnv initState _ (by decide) rfl⟩

/-- Claim C4: a malformed frame (a pixel without exactly 3 channels) makes
`apply_face_filter` fail fast — it signals `invalidFrameFormat` before any
external call — and this is the only fatal case: on every well-formed
frame the call returns `.ok`. -/
theorem claim_C4_invalid_frame_error (env : Env) (s : CameraState) (frame : Frame) :
    (validFrame frame = false →
      apply_face_filter env s frame = (.error CvError.invalidFrameFormat, [])) ∧
    (validFrame frame = true →
      ∃ g tr, apply_face_filter env s frame = (.ok (g, s), tr)) := by
  constructor
  · intro h
    unfold apply_face_filter
    rw [cvtColor_of_invalid frame h]
  · intro h
    unfold apply_face_filter
    rw [cvtColor_of_valid frame h]
    dsimp only
    by_cases he : (env.detect (bgr2rgb frame)).isEmpty
    · exact ⟨frame, [Event.detect], by rw [if_pos he]⟩
    · exact ⟨_, _, by rw [if_neg he]⟩

theorem claim_C4_witness :
    validFrame [[[1, 2]]] = false ∧
    apply_face_filter idEnv initState [[[1, 2]]] = (.error CvError.invalidFrameFormat, []) :=
  ⟨by decide, (claim_C4_invalid_frame_error idEnv initState [[[1, 2]]]).1 (by decide)⟩

/-- Claim C8: when the camera read fails, the tick makes no external call
(no detection, no compositing), the view is cleared, and the whole state —
the stored last-captured frame included — is left exactly as it was. -/
theorem claim_C8_read_fail_noop (env : Env) (s : CameraState) :
    update_frame env s none = (.ok (s, Display.cleared), []) := rfl

/-- Claim C7: compositing is stateless — a successful `apply_face_filter`
returns the application state untouched (no filter flag flipped, no frame
reference stored), and a successful tick never changes the filter flags or
the selected background. -/
theorem claim_C7_stateless (env : Env) (s : CameraState) (frame : Frame) :
    (∀ g s' tr, apply_face_filter env s frame = (.ok (g, s'), tr) → s' = s) ∧
    (∀ camRead s' d tr, update_frame env s camRead = (.ok (s', d), tr) →
      s'.filter_states = s.filter_states ∧
        s'.current_background = s.current_background) :=
  ⟨fun g s' tr h => apply_face_filter_state env s frame g s' tr h,
   fun camRead s' d tr h => update_frame_preserves env s camRead s' d tr h⟩

theorem claim_C7_witness :
    apply_face_filter idEnv initState [[[1, 2, 3]]] =
      (.ok ([[[1, 2, 3]]], initState), [Event.detect]) ∧
    initState = initState :=
  ⟨rfl, (claim_C7_stateless idEnv initState [[[1, 2, 3]]]).1 [[[1, 2, 3]]] initState
    [Event.detect] rfl⟩

/-- Invariant of every reachable state: the Background flag mirrors
whether a background is selected, and the only selectable background is
`space.jpg`. -/
def bgInv (s : CameraState) : Prop :=
  s.filter_states.background = s.current_background.isSome ∧
  ∀ p, s.current_background = some p → p = "space.jpg"

theorem reachable_bgInv (s : CameraState) (h : Reachable s) : bgInv s := by
  induction h with
  | init => exact ⟨rfl, fun p hp => by simp [initState] at hp⟩
  | ui s op hs ih =>
      obtain ⟨ih1, ih2⟩ := ih
      cases op with
      | toggleBlush => exact ⟨ih1, ih2⟩
      | toggleSunglasses => exact ⟨ih1, ih2⟩
      | toggleRabbitEars => exact ⟨ih1, ih2⟩
      | toggleBackground checked =>
          cases checked with
          | true =>
              refine ⟨rfl, fun p hp => ?_⟩
              simp [applyUiOp, toggle_background, background_images] at hp
              exact hp.symm
          | false =>
              refine ⟨rfl, fun p hp => ?_⟩
              simp [applyUiOp, toggle_background] at hp
  | tick s env camRead s' d tr hs hupd ih =>
      obtain ⟨h1, h2⟩ := update_frame_preserves env s camRead s' d tr hupd
      exact ⟨by rw [h1, h2]; exact ih.1, by rw [h2]; exact ih.2⟩

/-- Claim C9: toggling Background on always selects `space.jpg`, toggling
it off clears the selection, `background.jpg` is unreachable through the
wired handlers, and in every reachable state the Background flag is true
exactly when a background image is selected. -/
theorem claim_C9_background_selection (s : CameraState) (h : Reachable s) :
    (∀ s0 : CameraState, (toggle_background s0 true).current_background = some "space.jpg") ∧
    (∀ s0 : CameraState, (toggle_background s0 false).current_background = none) ∧
    (s.filter_states.background = true ↔ ∃ p, s.current_background = some p) ∧
    (∀ p, s.current_background = some p → p = "space.jpg") ∧
    s.current_background ≠ some "background.jpg" := by
  obtain ⟨h1, h2⟩ := reachable_bgInv s h
  refine ⟨fun s0 => rfl, fun s0 => rfl, ⟨?_, ?_⟩, h2, ?_⟩
  · intro hb
    cases hcb : s.current_background with
    | none => rw [hcb] at h1; rw [hb] at h1; exact absurd h1.symm (by simp)
    | some p => exact ⟨p, rfl⟩
  · rintro ⟨p, hp⟩
    rw [h1, hp]
    rfl
  · intro hc
    exact absurd (h2 _ hc) (by decide)

theorem claim_C9_witness :
    Reachable (applyUiOp initState (UiOp.toggleBackground true)) ∧
    (applyUiOp initState (UiOp.toggleBackground true)).current_background ≠
      some "background.jpg" ∧
    (applyUiOp initState (UiOp.toggleBackground true)).current_background =
      some "space.jpg" :=
  ⟨Reachable.ui initState _ Reachable.init,
   (claim_C9_background_selection _ (Reachable.ui initState _ Reachable.init)).2.2.2.2,
   rfl⟩

/-! ### Counting external calls in a tick's trace -/

/-- The overlay routines of the `filters` module and the background
replacement keep the frame geometry the camera delivers: they return a
frame of well-formed pixels when given one. -/
def EnvShapeOk (env : Env) : Prop :=
  (∀ f lm, validFrame f = true → validFrame (env.add_blush f lm) = true) ∧
  (∀ f lm, validFrame f = true → validFrame (env.overlay_sunglasses f lm) = true) ∧
  (∀ f lm, validFrame f = true → validFrame (env.overlay_rabbit_ears f lm) = true) ∧
  (∀ f lm bg, validFrame f = true → validFrame (env.apply_background_change f lm bg) = true)

theorem perFaceFrame_valid (env : Env) (s : CameraState) (f : Frame) (lm : LandmarkSet)
    (henv : EnvShapeOk env) (h : validFrame f = true) :
    validFrame (perFaceFrame env s f lm) = true := by
  obtain ⟨h1, h2, h3, h4⟩ := henv
  unfold perFaceFrame
  dsimp only
  have v1 : validFrame (if s.filter_states.blush then env.add_blush f lm else f) = true := by
    split
    · exact h1 _ _ h
    · exact h
  have v2 : validFrame (if s.filter_states.sunglasses then
      env.overlay_sunglasses (if s.filter_states.blush then env.add_blush f lm else f) lm
      else (if s.filter_states.blush then env.add_blush f lm else f)) = true := by
    split
    · exact h2 _ _ v1
    · exact v1
  have v3 : validFrame (if s.filter_states.rabbitEars then
      env.overlay_rabbit_ears (if s.filter_states.sunglasses then
        env.overlay_sunglasses (if s.filter_states.blush then env.add_blush f lm else f) lm
        else (if s.filter_states.blush then env.add_blush f lm else f)) lm
      else (if s.filter_states.sunglasses then
        env.overlay_sunglasses (if s.filter_states.blush then env.add_blush f lm else f) lm
        else (if s.filter_states.blush then env.add_blush f lm else f))) = true := by
    split
    · exact h3 _ _ v2
    · exact v2
  by_cases hbgf : s.filter_states.background = true
  · rw [if_pos hbgf]
    cases hcb : s.current_background with
    | none => exact v3
    | some bgpath =>
        dsimp only
        by_cases hbp : bgpath = ""
        · rw [if_pos hbp]
          exact v3
        · rw [if_neg hbp]
          exact h4 _ _ _ v3
  · rw [if_neg hbgf]
    exact v3

theorem foldFaces_valid (env : Env) (s : CameraState) (henv : EnvShapeOk env) :
    ∀ (faces : List LandmarkSet) (f : Frame), validFrame f = true →
      validFrame (foldFaces env s faces f).1 = true := by
  intro faces
  induction faces with
  | nil => intro f h; exact h
  | cons lm rest ih =>
      intro f h
      exact ih _ (perFaceFrame_valid env s f lm henv h)

/-- On a well-formed frame, `apply_face_filter` runs the detector once and
then the per-face loop over exactly the detector's list. -/
theorem apply_face_filter_ok (env : Env) (s : CameraState) (frame : Frame)
    (hval : validFrame frame = true) :
    apply_face_filter env s frame =
      (.ok ((foldFaces env s (env.detect (bgr2rgb frame)) frame).1, s),
       Event.detect :: (foldFaces env s (env.detect (bgr2rgb frame)) frame).2) := by
  unfold apply_face_filter
  rw [cvtColor_of_valid frame hval]
  dsimp only
  by_cases he : (env.detect (bgr2rgb frame)).isEmpty
  · rw [if_pos he]
    have hnil : env.detect (bgr2rgb frame) = [] := by
      cases hd : env.detect (bgr2rgb frame) with
      | nil => rfl
      | cons a l => rw [hd] at he; exact absurd he (by simp)
    rw [hnil]
    rfl
  · rw [if_neg he]

theorem blushTrace_countP (p : Event → Bool) (s : CameraState) (lm : LandmarkSet) :
    (blushTrace s lm).countP p =
      if s.filter_states.blush then (if p (Event.blushCall lm) = true then 1 else 0) else 0 := by
  unfold blushTrace
  split <;> simp [List.countP_cons]

theorem sunglassesTrace_countP (p : Event → Bool) (s : CameraState) (lm : LandmarkSet) :
    (sunglassesTrace s lm).countP p =
      if s.filter_states.sunglasses then
        (if p (Event.sunglassesCall lm) = true then 1 else 0) else 0 := by
  unfold sunglassesTrace
  split <;> simp [List.countP_cons]

theorem rabbitEarsTrace_countP (p : Event → Bool) (s : CameraState) (lm : LandmarkSet) :
    (rabbitEarsTrace s lm).countP p =
      if s.filter_states.rabbitEars then
        (if p (Event.rabbitEarsCall lm) = true then 1 else 0) else 0 := by
  unfold rabbitEarsTrace
  split <;> simp [List.countP_cons]

theorem backgroundTrace_countP (p : Event → Bool) (s : CameraState) (lm : LandmarkSet) :
    (backgroundTrace s lm).countP p =
      if bgSelected s then
        (if p (Event.imreadCall (s.current_background.getD "")) = true then 1 else 0) +
        (if p (Event.backgroundCall lm) = true then 1 else 0)
      else 0 := by
  unfold backgroundTrace bgSelected
  cases hb : s.filter_states.background
  · simp
  · cases hcb : s.current_background
    · simp
    · rename_i val
      by_cases hv : val = ""
      · simp [hv]
      · cases hp1 : p (Event.imreadCall val) <;> cases hp2 : p (Event.backgroundCall lm) <;>
          simp [hv, hp1, hp2, List.countP_cons]

theorem perFaceTrace_countP (p : Event → Bool) (s : CameraState) (lm : LandmarkSet) :
    (perFaceTrace s lm).countP p =
      (blushTrace s lm).countP p + (sunglassesTrace s lm).countP p +
        (rabbitEarsTrace s lm).countP p + (backgroundTrace s lm).countP p := by
  unfold perFaceTrace
  simp only [List.countP_append]

theorem perFaceTrace_count_detect (s : CameraState) (lm : LandmarkSet) :
    (perFaceTrace s lm).countP Event.isDetect = 0 := by
  rw [perFaceTrace_countP, blushTrace_countP, sunglassesTrace_countP,
    rabbitEarsTrace_countP, backgroundTrace_countP]
  simp [Event.isDetect]

theorem perFaceTrace_count_blush (s : CameraState) (lm : LandmarkSet) :
    (perFaceTrace s lm).countP Event.isBlush = if s.filter_states.blush then 1 else 0 := by
  rw [perFaceTrace_countP, blushTrace_countP, sunglassesTrace_countP,
    rabbitEarsTrace_countP, backgroundTrace_countP]
  simp [Event.isBlush]

theorem perFaceTrace_count_sunglasses (s : CameraState) (lm : LandmarkSet) :
    (perFaceTrace s lm).countP Event.isSunglasses =
      if s.filter_states.sunglasses then 1 else 0 := by
  rw [perFaceTrace_countP, blushTrace_countP, sunglassesTrace_countP,
    rabbitEarsTrace_countP, backgroundTrace_countP]
  simp [Event.isSunglasses]

theorem perFaceTrace_count_rabbitEars (s : CameraState) (lm : LandmarkSet) :
    (perFaceTrace s lm).countP Event.isRabbitEars =
      if s.filter_states.rabbitEars then 1 else 0 := by
  rw [perFaceTrace_countP, blushTrace_countP, sunglassesTrace_countP,
    rabbitEarsTrace_countP, backgroundTrace_countP]
  simp [Event.isRabbitEars]

theorem perFaceTrace_count_background (s : CameraState) (lm : LandmarkSet) :
    (perFaceTrace s lm).countP Event.isBackground = if bgSelected s then 1 else 0 := by
  rw [perFaceTrace_countP, blushTrace_countP, sunglassesTrace_countP,
    rabbitEarsTrace_countP, backgroundTrace_countP]
  simp [Event.isBackground]

theorem perFaceTrace_count_imread (s : CameraState) (lm : LandmarkSet) :
    (perFaceTrace s lm).countP Event.isImread = if bgSelected s then 1 else 0 := by
  rw [perFaceTrace_countP, blushTrace_countP, sunglassesTrace_countP,
    rabbitEarsTrace_countP, backgroundTrace_countP]
  simp [Event.isImread]

/-- If every per-face iteration contributes `k` events matching `p`, the
whole loop contributes `k` per detected face. -/
theorem foldFaces_trace_countP (env : Env) (s : CameraState) (p : Event → Bool) (k : Nat)
    (hper : ∀ lm, (perFaceTrace s lm).countP p = k) :
    ∀ (faces : List LandmarkSet) (frame : Frame),
      ((foldFaces env s faces frame).2).countP p = faces.length * k := by
  intro faces
  induction faces with
  | nil => intro frame; simp [foldFaces]
  | cons lm rest ih =>
      intro frame
      show ((perFaceTrace s lm ++ (foldFaces env s rest (perFaceFrame env s frame lm)).2)).countP p
        = (lm :: rest).length * k
      rw [List.countP_append, hper, ih]
      simp [Nat.succ_mul, Nat.add_comm]

/-- `apply_face_filter` on a malformed frame: the conversion raises before
any external call. -/
theorem apply_face_filter_err (env : Env) (s : CameraState) (frame : Frame)
    (h : validFrame frame = false) :
    apply_face_filter env s frame = (.error CvError.invalidFrameFormat, []) := by
  unfold apply_face_filter
  rw [cvtColor_of_invalid frame h]

/-- An environment whose detector finds two faces (and whose overlays are
identities): used to instantiate theorems on concrete inputs. -/
def cEnv2 : Env :=
  { add_blush := fun f _ => f
    overlay_sunglasses := fun f _ => f
    overlay_rabbit_ears := fun f _ => f
    apply_background_change := fun f _ _ => f
    imread := fun _ => none
    detect := fun _ => [[], []] }

/-- A state with only the Blush filter active. -/
def sBlush : CameraState :=
  { filter_states :=
      { blush := true, sunglasses := false, rabbitEars := false, background := false }
    current_background := none
    current_frame := none }

/-- A state with only the Background filter active and `space.jpg`
selected (exactly what `toggle_background(True)` produces). -/
def sBg : CameraState :=
  { filter_states :=
      { blush := false, sunglasses := false, rabbitEars := false, background := true }
    current_background := some "space.jpg"
    current_frame := none }

/-- What one successful tick on a camera frame does: the mirrored frame is
shown; with no active filter the trace is empty and the shown frame is the
mirror of the acquired one; with an active filter the detector runs once
and each active filter's compositing function runs once per detected
face. -/
def tickDispatchPost (env : Env) (s : CameraState) (frame : Frame) : Prop :=
  ∃ s' g tr, update_frame env s (some frame) = (.ok (s', Display.shown g), tr) ∧
    (s.filter_states.anyActive = false → g = cvFlipH frame ∧ tr = []) ∧
    (s.filter_states.anyActive = true →
      tr.countP Event.isDetect = 1 ∧
      tr.countP Event.isBlush =
        (if s.filter_states.blush then (env.detect (bgr2rgb (cvFlipH frame))).length else 0) ∧
      tr.countP Event.isSunglasses =
        (if s.filter_states.sunglasses then
          (env.detect (bgr2rgb (cvFlipH frame))).length else 0) ∧
      tr.countP Event.isRabbitEars =
        (if s.filter_states.rabbitEars then
          (env.detect (bgr2rgb (cvFlipH frame))).length else 0) ∧
      tr.countP Event.isBackground =
        (if s.filter_states.background then
          (env.detect (bgr2rgb (cvFlipH frame))).length else 0))

/-- Claim C3 (amended): per successful tick, if any filter flag is set the
detector runs exactly once and each active filter's compositing function
runs exactly once per detected face; if no flag is set nothing external is
invoked — but what goes to display is the horizontally mirrored acquired
frame (`cv2.flip(frame, 1)` runs unconditionally), not the acquired frame
itself. -/
theorem claim_C3_tick_dispatch (env : Env) (s : CameraState) (frame : Frame)
    (hval : validFrame frame = true) (henv : EnvShapeOk env)
    (hbg : s.filter_states.background = true → bgSelected s = true) :
    tickDispatchPost env s frame := by
  have hval1 : validFrame (cvFlipH frame) = true := by
    rw [validFrame_cvFlipH]
    exact hval
  by_cases ha : s.filter_states.anyActive = true
  · have hok := apply_face_filter_ok env s (cvFlipH frame) hval1
    have hvF : validFrame
        (foldFaces env s (env.detect (bgr2rgb (cvFlipH frame))) (cvFlipH frame)).1 = true :=
      foldFaces_valid env s henv _ _ hval1
    unfold tickDispatchPost
    set F := foldFaces env s (env.detect (bgr2rgb (cvFlipH frame))) (cvFlipH frame) with hF
    refine ⟨{ s with current_frame := some F.1 }, F.1, Event.detect :: F.2, ?_, ?_, ?_⟩
    · unfold update_frame
      dsimp only
      rw [if_pos ha, hok]
      dsimp only
      rw [cvtColor_of_valid _ hvF]
    · intro h
      rw [h] at ha
      exact absurd ha (by simp)
    · intro _
      refine ⟨?_, ?_, ?_, ?_, ?_⟩
      · rw [List.countP_cons,
          foldFaces_trace_countP env s Event.isDetect 0 (perFaceTrace_count_detect s)]
        simp [Event.isDetect]
      · rw [List.countP_cons,
          foldFaces_trace_countP env s Event.isBlush (if s.filter_states.blush then 1 else 0)
            (perFaceTrace_count_blush s)]
        cases s.filter_states.blush <;> simp [Event.isBlush]
      · rw [List.countP_cons,
          foldFaces_trace_countP env s Event.isSunglasses
            (if s.filter_states.sunglasses then 1 else 0) (perFaceTrace_count_sunglasses s)]
        cases s.filter_states.sunglasses <;> simp [Event.isSunglasses]
      · rw [List.countP_cons,
          foldFaces_trace_countP env s Event.isRabbitEars
            (if s.filter_states.rabbitEars then 1 else 0) (perFaceTrace_count_rabbitEars s)]
        cases s.filter_states.rabbitEars <;> simp [Event.isRabbitEars]
      · rw [List.countP_cons,
          foldFaces_trace_countP env s Event.isBackground (if bgSelected s then 1 else 0)
            (perFaceTrace_count_background s)]
        cases hbf : s.filter_states.background
        · have hsel : bgSelected s = false := by simp [bgSelected, hbf]
          simp [Event.isBackground, hsel]
        · have hsel : bgSelected s = true := hbg hbf
          simp [Event.isBackground, hsel]
  · have ha0 : s.filter_states.anyActive = false := by
      cases hh : s.filter_states.anyActive
      · rfl
      · exact absurd hh ha
    unfold tickDispatchPost
    refine ⟨{ s with current_frame := some (cvFlipH frame) }, cvFlipH frame, [], ?_, ?_, ?_⟩
    · unfold update_frame
      dsimp only
      rw [if_neg ha]
      dsimp only
      rw [cvtColor_of_valid _ hval1]
    · intro _
      exact ⟨rfl, rfl⟩
    · intro h
      exact absurd h ha

theorem claim_C3_witness :
    validFrame [[[1, 2, 3]]] = true ∧ tickDispatchPost cEnv2 sBlush [[[1, 2, 3]]] :=
  ⟨by decide, claim_C3_tick_dispatch cEnv2 sBlush [[[1, 2, 3]]] (by decide)
    ⟨fun _ _ h => h, fun _ _ h => h, fun _ _ h => h, fun _ _ _ h => h⟩ (by decide)⟩

/-- Claim C3, as stated, is false: with no active filter the frame that
goes to display is not the acquired frame — `update_frame` mirrors it
unconditionally. -/
theorem claim_C3_counterexample :
    update_frame idEnv initState (some [[[1, 2, 3], [4, 5, 6]]]) =
      (.ok ({ initState with current_frame := some [[[4, 5, 6], [1, 2, 3]]] },
        Display.shown [[[4, 5, 6], [1, 2, 3]]]), []) ∧
    ([[[4, 5, 6], [1, 2, 3]]] : Frame) ≠ [[[1, 2, 3], [4, 5, 6]]] :=
  ⟨rfl, by decide⟩

/-- A state identical to `s` except that the Background flag is off. -/
def bgOff (s : CameraState) : CameraState :=
  { s with filter_states := { s.filter_states with background := false } }

theorem perFaceFrame_bgMiss (env : Env) (s : CameraState)
    (hskip : ∀ g lm, env.apply_background_change g lm none = g)
    (hmiss : ∀ q, env.imread q = none) (f : Frame) (lm : LandmarkSet) :
    perFaceFrame env s f lm = perFaceFrame env (bgOff s) f lm := by
  unfold perFaceFrame bgOff
  dsimp only
  by_cases hbf : s.filter_states.background = true
  · rw [if_pos hbf, if_neg Bool.false_ne_true]
    cases hcb : s.current_background with
    | none => rfl
    | some bgpath =>
        dsimp only
        by_cases hbp : bgpath = ""
        · rw [if_pos hbp]
        · rw [if_neg hbp, hmiss bgpath, hskip]
  · rw [if_neg hbf, if_neg Bool.false_ne_true]

theorem foldFaces_bgMiss (env : Env) (s : CameraState)
    (hskip : ∀ g lm, env.apply_background_change g lm none = g)
    (hmiss : ∀ q, env.imread q = none) :
    ∀ (faces : List LandmarkSet) (f : Frame),
      (foldFaces env s faces f).1 = (foldFaces env (bgOff s) faces f).1 := by
  intro faces
  induction faces with
  | nil => intro f; rfl
  | cons lm rest ih =>
      intro f
      show (foldFaces env s rest (perFaceFrame env s f lm)).1 =
        (foldFaces env (bgOff s) rest (perFaceFrame env (bgOff s) f lm)).1
      rw [← perFaceFrame_bgMiss env s hskip hmiss f lm]
      exact ih _

/-- Claim C5: when the selected background file is unreadable (`cv2.imread`
yields nothing) and `apply_background_change` skips on a missing image, the
tick's resulting frame is exactly the one produced with the Background
filter disabled — the other active filters still run for every face, and
the pipeline is never interrupted.  The blush/sunglasses/ears call counts
are also unchanged. -/
theorem claim_C5_missing_bg_skip (env : Env) (s : CameraState) (frame : Frame)
    (hskip : ∀ g lm, env.apply_background_change g lm none = g)
    (hmiss : ∀ q, env.imread q = none) :
    okFrame (apply_face_filter env s frame) =
      okFrame (apply_face_filter env (bgOff s) frame) ∧
    (apply_face_filter env s frame).2.countP Event.isBlush =
      (apply_face_filter env (bgOff s) frame).2.countP Event.isBlush ∧
    (apply_face_filter env s frame).2.countP Event.isSunglasses =
      (apply_face_filter env (bgOff s) frame).2.countP Event.isSunglasses ∧
    (apply_face_filter env s frame).2.countP Event.isRabbitEars =
      (apply_face_filter env (bgOff s) frame).2.countP Event.isRabbitEars := by
  by_cases hval : validFrame frame = true
  · rw [apply_face_filter_ok env s frame hval, apply_face_filter_ok env (bgOff s) frame hval]
    refine ⟨?_, ?_, ?_, ?_⟩
    · unfold okFrame
      dsimp only
      rw [foldFaces_bgMiss env s hskip hmiss]
    · rw [List.countP_cons, List.countP_cons,
        foldFaces_trace_countP env s Event.isBlush (if s.filter_states.blush then 1 else 0)
          (perFaceTrace_count_blush s),
        foldFaces_trace_countP env (bgOff s) Event.isBlush
          (if s.filter_states.blush then 1 else 0) (perFaceTrace_count_blush (bgOff s))]
    · rw [List.countP_cons, List.countP_cons,
        foldFaces_trace_countP env s Event.isSunglasses
          (if s.filter_states.sunglasses then 1 else 0) (perFaceTrace_count_sunglasses s),
        foldFaces_trace_countP env (bgOff s) Event.isSunglasses
          (if s.filter_states.sunglasses then 1 else 0)
          (perFaceTrace_count_sunglasses (bgOff s))]
    · rw [List.countP_cons, List.countP_cons,
        foldFaces_trace_countP env s Event.isRabbitEars
          (if s.filter_states.rabbitEars then 1 else 0) (perFaceTrace_count_rabbitEars s),
        foldFaces_trace_countP env (bgOff s) Event.isRabbitEars
          (if s.filter_states.rabbitEars then 1 else 0)
          (perFaceTrace_count_rabbitEars (bgOff s))]
  · have hv : validFrame frame = false := by
      cases h : validFrame frame
      · rfl
      · exact absurd h hval
    rw [apply_face_filter_err env s frame hv, apply_face_filter_err env (bgOff s) frame hv]
    exact ⟨rfl, rfl, rfl, rfl⟩

theorem claim_C5_witness :
    okFrame (apply_face_filter idEnv sBg [[[1, 2, 3]]]) =
      okFrame (apply_face_filter idEnv (bgOff sBg) [[[1, 2, 3]]]) :=
  (claim_C5_missing_bg_skip idEnv sBg [[[1, 2, 3]]] (fun _ _ => rfl) (fun _ => rfl)).1

/-- Claim C6, as stated, is false: one compositing call on one frame with
the Background filter active performs disk loads (`cv2.imread`) — here two
of them, one per detected face. -/
theorem claim_C6_counterexample :
    (apply_face_filter cEnv2 sBg [[[1, 2, 3]]]).2.countP Event.isImread ≠ 0 := by decide

/-- Claim C6 (amended): the background image is not loaded once at
selection — `apply_face_filter` re-reads it from disk on every tick it
runs with the Background filter active, once per detected face. -/
theorem claim_C6_bg_reload (env : Env) (s : CameraState) (frame : Frame)
    (hval : validFrame frame = true) (hbg : bgSelected s = true) :
    (apply_face_filter env s frame).2.countP Event.isImread =
      (env.detect (bgr2rgb frame)).length := by
  rw [apply_face_filter_ok env s frame hval, List.countP_cons,
    foldFaces_trace_countP env s Event.isImread (if bgSelected s then 1 else 0)
      (perFaceTrace_count_imread s)]
  simp [Event.isImread, hbg]

theorem claim_C6_witness :
    bgSelected sBg = true ∧
    (apply_face_filter cEnv2 sBg [[[1, 2, 3]]]).2.countP Event.isImread =
      (Env.detect cEnv2 (bgr2rgb [[[1, 2, 3]]])).length :=
  ⟨by decide, claim_C6_bg_reload cEnv2 sBg [[[1, 2, 3]]] (by decide) (by decide)⟩

/-- Claim C10: the detector is configured with `max_num_faces=10`; under
the detector's contract (at most `maxNumFaces` landmark sets per frame)
each compositing function runs at most 10 times in one
`apply_face_filter` call. -/
theorem claim_C10_face_cap (env : Env) (s : CameraState) (frame : Frame)
    (hcap : ∀ g, (env.detect g).length ≤ maxNumFaces) (hval : validFrame frame = true) :
    maxNumFaces = 10 ∧
    (apply_face_filter env s frame).2.countP Event.isBlush ≤ maxNumFaces ∧
    (apply_face_filter env s frame).2.countP Event.isSunglasses ≤ maxNumFaces ∧
    (apply_face_filter env s frame).2.countP Event.isRabbitEars ≤ maxNumFaces ∧
    (apply_face_filter env s frame).2.countP Event.isBackground ≤ maxNumFaces := by
  have hn := hcap (bgr2rgb frame)
  have hok := apply_face_filter_ok env s frame hval
  refine ⟨rfl, ?_, ?_, ?_, ?_⟩ <;> rw [hok, List.countP_cons]
  · rw [foldFaces_trace_countP env s Event.isBlush (if s.filter_states.blush then 1 else 0)
      (perFaceTrace_count_blush s)]
    simp [Event.isBlush, maxNumFaces] at hn ⊢
    split <;> omega
  · rw [foldFaces_trace_countP env s Event.isSunglasses
      (if s.filter_states.sunglasses then 1 else 0) (perFaceTrace_count_sunglasses s)]
    simp [Event.isSunglasses, maxNumFaces] at hn ⊢
    split <;> omega
  · rw [foldFaces_trace_countP env s Event.isRabbitEars
      (if s.filter_states.rabbitEars then 1 else 0) (perFaceTrace_count_rabbitEars s)]
    simp [Event.isRabbitEars, maxNumFaces] at hn ⊢
    split <;> omega
  · rw [foldFaces_trace_countP env s Event.isBackground (if bgSelected s then 1 else 0)
      (perFaceTrace_count_background s)]
    simp [Event.isBackground, maxNumFaces] at hn ⊢
    split <;> omega

theorem claim_C10_witness :
    maxNumFaces = 10 ∧
    (apply_face_filter idEnv initState [[[1, 2, 3]]]).2.countP Event.isBlush ≤ maxNumFaces ∧
    (apply_face_filter idEnv initState [[[1, 2, 3]]]).2.countP Event.isSunglasses ≤
      maxNumFaces ∧
    (apply_face_filter idEnv initState [[[1, 2, 3]]]).2.countP Event.isRabbitEars ≤
      maxNumFaces ∧
    (apply_face_filter idEnv initState [[[1, 2, 3]]]).2.countP Event.isBackground ≤
      maxNumFaces :=
  claim_C10_face_cap idEnv initState [[[1, 2, 3]]] (fun g => Nat.zero_le _) (by decide)

/-! ### Claim C2: a model of overlays as region writes -/

/-- Modelled from the spec: the per-face overlay routines live in the
`filters` module, which is not part of the repository sources.  Per the
spec, an overlay writes its (placed, scaled) asset pixels into a
face-dependent region of the frame and leaves every pixel outside that
region untouched.  `writeRow` performs the write on one row, starting at
column index `c`. -/
def writeRow (region : Nat → Bool) (src : Nat → Pixel) : Nat → List Pixel → List Pixel
  | _, [] => []
  | c, px :: rest => (if region c then src c else px) :: writeRow region src (c + 1) rest

/-- Modelled from the spec: the region write over all rows, starting at
row index `r`. -/
def writeRows (region : Nat → Nat → Bool) (src : Nat → Nat → Pixel) : Nat → Frame → Frame
  | _, [] => []
  | r, row :: rest => writeRow (region r) (src r) 0 row :: writeRows region src (r + 1) rest

/-- Modelled from the spec: one overlay application — write `src` into
every position of the frame where `region` holds. -/
def overlayWrite (region : Nat → Nat → Bool) (src : Nat → Nat → Pixel) (f : Frame) : Frame :=
  writeRows region src 0 f

theorem writeRow_get (region : Nat → Bool) (src : Nat → Pixel) :
    ∀ (row : List Pixel) (c i : Nat),
      (writeRow region src c row).get? i =
        (row.get? i).map fun px => if region (c + i) then src (c + i) else px := by
  intro row
  induction row with
  | nil =>
      intro c i
      simp [writeRow]
  | cons px rest ih =>
      intro c i
      cases i with
      | zero => simp [writeRow]
      | succ j =>
          simp only [writeRow, List.get?_cons_succ, ih (c + 1) j, Nat.add_succ, Nat.succ_add]

theorem writeRows_get (region : Nat → Nat → Bool) (src : Nat → Nat → Pixel) :
    ∀ (rows : Frame) (r i : Nat),
      (writeRows region src r rows).get? i =
        (rows.get? i).map fun row => writeRow (region (r + i)) (src (r + i)) 0 row := by
  intro rows
  induction rows with
  | nil =>
      intro r i
      simp [writeRows]
  | cons row rest ih =>
      intro r i
      cases i with
      | zero => simp [writeRows]
      | succ j =>
          simp only [writeRows, List.get?_cons_succ, ih (r + 1) j, Nat.add_succ, Nat.succ_add]

theorem pixelAt_overlayWrite (region : Nat → Nat → Bool) (src : Nat → Nat → Pixel)
    (f : Frame) (r c : Nat) :
    pixelAt (overlayWrite region src f) r c =
      (pixelAt f r c).map fun px => if region r c then src r c else px := by
  unfold pixelAt overlayWrite
  rw [writeRows_get]
  cases hr : f.get? r with
  | none => simp
  | some row =>
      simp only [Option.map_some', Option.some_bind]
      rw [writeRow_get]
      simp

/-- Modelled from the spec: an environment whose Sunglasses overlay is a
region write parameterised by the detected face's landmarks, the other
overlays being irrelevant (identity), together with a given detector. -/
def regionEnv (region : LandmarkSet → Nat → Nat → Bool) (src : LandmarkSet → Nat → Nat → Pixel)
    (det : Frame → List LandmarkSet) : Env :=
  { add_blush := fun f _ => f
    overlay_sunglasses := fun f lm => overlayWrite (region lm) (src lm) f
    overlay_rabbit_ears := fun f _ => f
    apply_background_change := fun f _ _ => f
    imread := fun _ => none
    detect := det }

/-- The filter flags with only Sunglasses active. -/
def sunglassesOnly : FilterState :=
  { blush := false, sunglasses := true, rabbitEars := false, background := false }

/-- Claim C2: with two detected faces the per-face overlays run once per
face, in the detector's order (the trace lists face 1 before face 2), and
on a position covered by the second face's overlay region the final pixel
is the second face's overlay pixel — the later-processed face wins. -/
theorem claim_C2_later_face_wins (region : LandmarkSet → Nat → Nat → Bool)
    (src : LandmarkSet → Nat → Nat → Pixel) (det : Frame → List LandmarkSet)
    (cb : Option String) (cf : Option Frame) (frame : Frame)
    (lm1 lm2 : LandmarkSet) (r c : Nat) (px : Pixel)
    (hval : validFrame frame = true)
    (hdet : det (bgr2rgb frame) = [lm1, lm2])
    (hreg : region lm2 r c = true)
    (hpx : pixelAt frame r c = some px) :
    apply_face_filter (regionEnv region src det)
        { filter_states := sunglassesOnly, current_background := cb, current_frame := cf }
        frame =
      (.ok (overlayWrite (region lm2) (src lm2) (overlayWrite (region lm1) (src lm1) frame),
          { filter_states := sunglassesOnly, current_background := cb, current_frame := cf }),
        [Event.detect, Event.sunglassesCall lm1, Event.sunglassesCall lm2]) ∧
    pixelAt (overlayWrite (region lm2) (src lm2) (overlayWrite (region lm1) (src lm1) frame))
        r c = some (src lm2 r c) := by
  constructor
  · rw [apply_face_filter_ok _ _ _ hval]
    dsimp only [regionEnv]
    rw [hdet]
    rfl
  · rw [pixelAt_overlayWrite, pixelAt_overlayWrite, hpx]
    simp [hreg]

/-- Witness pieces for the C2 instantiation. -/
def wRegion : LandmarkSet → Nat → Nat → Bool := fun _ _ _ => true

def wSrc : LandmarkSet → Nat → Nat → Pixel := fun lm _ _ => [lm.length, 0, 0]

def wDet : Frame → List LandmarkSet := fun _ => [[], [⟨0, 0⟩]]

theorem claim_C2_witness :
    apply_face_filter (regionEnv wRegion wSrc wDet)
        { filter_states := sunglassesOnly, current_background := none, current_frame := none }
        [[[1, 2, 3]]] =
      (.ok (overlayWrite (wRegion [⟨0, 0⟩]) (wSrc [⟨0, 0⟩])
            (overlayWrite (wRegion []) (wSrc []) [[[1, 2, 3]]]),
          { filter_states := sunglassesOnly, current_background := none,
            current_frame := none }),
        [Event.detect, Event.sunglassesCall [], Event.sunglassesCall [⟨0, 0⟩]]) ∧
    pixelAt (overlayWrite (wRegion [⟨0, 0⟩]) (wSrc [⟨0, 0⟩])
        (overlayWrite (wRegion []) (wSrc []) [[[1, 2, 3]]])) 0 0 = some [1, 0, 0] :=
  claim_C2_later_face_wins wRegion wSrc wDet none none [[[1, 2, 3]]] [] [⟨0, 0⟩] 0 0 [1, 2, 3]
    (by decide) rfl rfl rfl

end MatLab
